import Mathlib

/-!
Verification development for the LineStart Work Order Lifecycle &
Schedule Consistency engine.

The definitions below are a shallow embedding of the TypeScript source:

* `LineStart.calculateDuration`       — src/lib/utils/calculations.ts, `calculateDuration`
* `LineStart.handleComplete`          — CompleteWorkModal.svelte, `handleComplete`
* `LineStart.handleStartWrites`       — StartWorkModal.svelte, `handleStart`
* `LineStart.CloudFn.onWorkOrderWrite`— functions/src/index.ts, `onWorkOrderWrite`
* `LineStart.CloudFn.onResourceUpdateWrites` — functions/src/index.ts, `onResourceUpdate`
* `LineStart.Sys.Step`                — the operation-level state machine assembled
  from the UI handlers (job creation, assignment push, start, pause, resume,
  complete).

Quantities are modelled as integers (JS numbers used as integral counters in
the source), rates and durations for the calculator as rationals, timestamps
as integers (epoch seconds).
-/

namespace LineStart

/-- Work-order status enum (`WorkOrderStatus` in src/lib/types/index.ts).
The source value named partial is called `partialStatus` here. -/
inductive WorkOrderStatus where
  | queued
  | active
  | paused
  | completed
  | partialStatus
  deriving DecidableEq, Repr

/-- Work-order type enum (`WorkOrderType` in src/lib/types/index.ts). -/
inductive WorkOrderType where
  | production
  | downtime
  deriving DecidableEq, Repr

/-- Priority enum (`Priority` in src/lib/types/index.ts). -/
inductive Priority where
  | high
  | normal
  | none
  deriving DecidableEq, Repr

/-- Job status enum (`JobStatus` in src/lib/types/index.ts): the source
values unassigned, assigned, in_progress and finished. -/
inductive JobStatus where
  | unassigned
  | assigned
  | inProgress
  | finished
  deriving DecidableEq, Repr

/-- `WorkOrder` document (src/lib/types/index.ts).  `resourceId = ""` is the
empty-string sentinel the source uses for an unassigned resource. -/
structure WorkOrder where
  id : Nat
  jobId : Nat
  resourceId : String
  woType : WorkOrderType
  priority : Priority
  estimatedDuration : Int
  scheduledStart : Option Int
  status : WorkOrderStatus
  quantityTarget : Int
  quantityCompleted : Int
  assignedBy : String
  startedBy : Option String := Option.none
  startedAt : Option Int := Option.none
  completedBy : Option String := Option.none
  completedAt : Option Int := Option.none
  deriving DecidableEq, Repr

/-- `CreateWorkOrderInput` (src/lib/types/index.ts): the payload handed to
`createWorkOrder`. -/
structure CreateWorkOrderInput where
  jobId : Nat
  resourceId : String
  woType : WorkOrderType
  priority : Priority
  estimatedDuration : Int
  scheduledStart : Option Int
  status : WorkOrderStatus
  quantityTarget : Int
  quantityCompleted : Int
  deriving DecidableEq, Repr

/-- `calculateDuration` (src/lib/utils/calculations.ts).  Throws when
`productionRate <= 0`, otherwise returns
`Math.round(setupTime + quantity * (60 / productionRate))`. -/
def calculateDuration (setupTime quantity productionRate : ℚ) : Except String ℤ :=
  if productionRate ≤ 0 then
    Except.error "Production rate must be greater than 0"
  else
    let minutesPerUnit : ℚ := 60 / productionRate
    let estimatedDuration : ℚ := setupTime + quantity * minutesPerUnit
    Except.ok (round estimatedDuration)

/-- A close of the active time entry (`closeTimeEntry` call in the complete
handler): entry id, quantity recorded, end timestamp. -/
structure TimeEntryClose where
  entryId : Nat
  quantityCompleted : Int
  endTime : Int
  deriving DecidableEq, Repr

/-- The writes issued by one run of `handleComplete`
(CompleteWorkModal.svelte): an optional error (validation failure shown to
the user, nothing written), the update written to the original work order,
and the list of `createWorkOrder` payloads issued. -/
structure CompleteOutcome where
  error : Option String
  closedEntry : Option TimeEntryClose
  updatedOrder : Option WorkOrder
  createdRemainders : List CreateWorkOrderInput
  deriving DecidableEq, Repr

/-- `handleComplete` (CompleteWorkModal.svelte).  `quantityCompleted` is the
quantity the operator delivered this session, `activeEntry` the id of the
unclosed time entry if one exists, `now` the value of `Timestamp.now()`. -/
def handleComplete (workOrder : WorkOrder) (quantityCompleted : Int)
    (uid : String) (activeEntry : Option Nat) (now : Int) : CompleteOutcome :=
  if quantityCompleted ≤ 0 then
    { error := some "Quantity completed must be greater than 0",
      closedEntry := Option.none, updatedOrder := Option.none, createdRemainders := [] }
  else if quantityCompleted > workOrder.quantityTarget - workOrder.quantityCompleted then
    { error := some "Quantity cannot exceed remaining target",
      closedEntry := Option.none, updatedOrder := Option.none, createdRemainders := [] }
  else
    let closedEntry := activeEntry.map fun entryId =>
      { entryId := entryId, quantityCompleted := quantityCompleted, endTime := now }
    let newQuantityCompleted := workOrder.quantityCompleted + quantityCompleted
    -- isFullyCompleted = newQuantityCompleted >= workOrder.quantityTarget
    if newQuantityCompleted ≥ workOrder.quantityTarget then
      { error := Option.none,
        closedEntry := closedEntry,
        updatedOrder := some { workOrder with
          status := WorkOrderStatus.completed,
          quantityCompleted := workOrder.quantityTarget,
          completedBy := some uid,
          completedAt := some now },
        createdRemainders := [] }
    else
      let remainingQuantity := workOrder.quantityTarget - newQuantityCompleted
      { error := Option.none,
        closedEntry := closedEntry,
        updatedOrder := some { workOrder with
          status := WorkOrderStatus.partialStatus,
          quantityCompleted := newQuantityCompleted,
          completedBy := some uid,
          completedAt := some now },
        createdRemainders := [
          { jobId := workOrder.jobId,
            resourceId := "",
            woType := WorkOrderType.production,
            priority := workOrder.priority,
            estimatedDuration := 0,
            scheduledStart := Option.none,
            status := WorkOrderStatus.queued,
            quantityTarget := remainingQuantity,
            quantityCompleted := 0 }] }

/-- The write issued by `handleStart` (StartWorkModal.svelte): the work order
is set `active` with starter and timestamp; a time entry is created; the
handler issues no job update (`updateJob` is not called there). -/
structure StartWrites where
  workOrderUpdate : WorkOrder
  timeEntryCreated : Bool
  jobUpdate : Option JobStatus
  deriving DecidableEq, Repr

/-- `handleStart` (StartWorkModal.svelte). -/
def handleStartWrites (workOrder : WorkOrder) (uid : String) (now : Int) : StartWrites :=
  { workOrderUpdate := { workOrder with
      status := WorkOrderStatus.active,
      startedBy := some uid,
      startedAt := some now },
    timeEntryCreated := true,
    jobUpdate := Option.none }

/-- The work-order update written by `handlePause` (resource detail page):
only the status field changes (the active time entry is closed with zero
quantity; `quantityCompleted` is untouched). -/
def pauseWrite (workOrder : WorkOrder) : WorkOrder :=
  { workOrder with status := WorkOrderStatus.paused }

/-- The work-order update written by `handleResume` (resource detail page):
a fresh time entry is created and only the status field changes. -/
def resumeWrite (workOrder : WorkOrder) : WorkOrder :=
  { workOrder with status := WorkOrderStatus.active }

/-- `createWorkOrder` (src/lib/utils/firestore.ts): materialises a
`CreateWorkOrderInput` into a stored `WorkOrder` document under a fresh id,
stamping `assignedBy`. -/
def instantiateWorkOrder (input : CreateWorkOrderInput) (id : Nat) (assignedBy : String) :
    WorkOrder :=
  { id := id,
    jobId := input.jobId,
    resourceId := input.resourceId,
    woType := input.woType,
    priority := input.priority,
    estimatedDuration := input.estimatedDuration,
    scheduledStart := input.scheduledStart,
    status := input.status,
    quantityTarget := input.quantityTarget,
    quantityCompleted := input.quantityCompleted,
    assignedBy := assignedBy }

/-- Minimal audit record (`AuditLogEntry` in src/lib/types/index.ts). -/
structure AuditRecord where
  jobId : Nat
  workOrderId : Option Nat
  action : String
  userId : String
  timestamp : Int
  deriving DecidableEq, Repr

/-- A document store holding work orders keyed by id plus the append-only
audit ledger (`/auditLogs`). -/
structure Store where
  workOrders : Nat → Option WorkOrder
  auditLogs : List AuditRecord

/-- Persistence of one `handleComplete` run (CompleteWorkModal.svelte).
The handler awaits `updateWorkOrder` on the original and then, in the
partial branch, awaits `createWorkOrder` for the remainder as a second,
independent write; there is no transaction.  `createSucceeds = false`
models the second write failing: the surrounding catch block only surfaces
an error message and performs no rollback, so the first write stays.  No
branch of the handler (nor `updateWorkOrder`/`createWorkOrder` in
src/lib/utils/firestore.ts) calls `createAuditLog`, so the ledger is left
unchanged in every branch. -/
def persistCompleteOutcome (store : Store) (origId : Nat) (freshId : Nat) (uid : String)
    (outcome : CompleteOutcome) (createSucceeds : Bool) : Store :=
  match outcome.updatedOrder with
  | Option.none => store
  | some updated =>
    let s1 : Store :=
      { store with workOrders := Function.update store.workOrders origId (some updated) }
    match outcome.createdRemainders with
    | [] => s1
    | input :: _ =>
      if createSucceeds then
        let remainder := instantiateWorkOrder input freshId uid
        { s1 with workOrders := Function.update s1.workOrders freshId (some remainder) }
      else s1

end LineStart

namespace LineStart.CloudFn

/-- `currentDowntime` field of a resource (functions/src/index.ts,
interface `Resource`). -/
structure CurrentDowntime where
  isDown : Bool
  startTime : Option Int
  reason : Option String
  deriving DecidableEq, Repr

/-- Resource document as read by the Cloud Functions
(functions/src/index.ts, interface `Resource`). -/
structure ResourceDoc where
  name : String
  uid : String
  currentDowntime : Option CurrentDowntime
  deriving DecidableEq, Repr

/-- Work-order document as read by the Cloud Functions
(functions/src/index.ts, interface `WorkOrder`). -/
structure WorkOrderDoc where
  jobId : Nat
  resourceId : String
  woType : WorkOrderType
  status : WorkOrderStatus
  quantityTarget : Int
  quantityCompleted : Int
  estimatedDuration : Int
  scheduledStart : Option Int
  createdAt : Int
  modifiedAt : Int
  deriving DecidableEq, Repr

/-- Derived schedule-view entry (functions/src/index.ts, interface
`GanttEntry`). -/
structure GanttEntryDoc where
  id : Nat
  jobId : Nat
  workOrderId : Nat
  resourceId : String
  resourceName : String
  woType : WorkOrderType
  status : WorkOrderStatus
  startTime : Int
  endTime : Int
  duration : Int
  quantityTarget : Int
  quantityCompleted : Int
  createdAt : Int
  modifiedAt : Int
  deriving DecidableEq, Repr

/-- Store action decided by a synchronizer trigger run. -/
inductive SyncAction where
  | deleteEntry (workOrderId : Nat)
  | skip
  | setEntry (workOrderId : Nat) (entry : GanttEntryDoc)
  deriving DecidableEq, Repr

/-- The `ganttEntry` object literal built by `onWorkOrderWrite`
(functions/src/index.ts).  `startTime` is `scheduledStart || createdAt`,
`endTime` adds `estimatedDuration * 60` seconds, `modifiedAt` is the
trigger run time (`Timestamp.now()`). -/
def ganttEntryFor (jobId workOrderId : Nat) (workOrder : WorkOrderDoc)
    (resource : ResourceDoc) (now : Int) : GanttEntryDoc :=
  let startTime := workOrder.scheduledStart.getD workOrder.createdAt
  let endTime := startTime + workOrder.estimatedDuration * 60
  { id := workOrderId,
    jobId := jobId,
    workOrderId := workOrderId,
    resourceId := workOrder.resourceId,
    resourceName := resource.name,
    woType := workOrder.woType,
    status := workOrder.status,
    startTime := startTime,
    endTime := endTime,
    duration := workOrder.estimatedDuration,
    quantityTarget := workOrder.quantityTarget,
    quantityCompleted := workOrder.quantityCompleted,
    createdAt := workOrder.createdAt,
    modifiedAt := now }

/-- `onWorkOrderWrite` (functions/src/index.ts): on deletion the view entry
is deleted; with no resource assigned the event is skipped; with the
resource missing the event is skipped (logged); otherwise the view entry is
written from the incoming document.  The function never reads the existing
view entry and carries out no version comparison. -/
def onWorkOrderWrite (jobId workOrderId : Nat) (afterDoc : Option WorkOrderDoc)
    (resourceLookup : Option ResourceDoc) (now : Int) : SyncAction :=
  match afterDoc with
  | Option.none => SyncAction.deleteEntry workOrderId
  | some workOrder =>
    if workOrder.resourceId = "" then
      SyncAction.skip
    else
      match resourceLookup with
      | Option.none => SyncAction.skip
      | some resource =>
        SyncAction.setEntry workOrderId (ganttEntryFor jobId workOrderId workOrder resource now)

/-- Effect of a `SyncAction` on the stored view entry of the work order.
`db.collection(\x7b...\x7d)`-style `set` with `merge: true` writes every field of
the full object literal, so a `setEntry` replaces the entry wholesale. -/
def applySyncAction (view : Option GanttEntryDoc) : SyncAction → Option GanttEntryDoc
  | SyncAction.deleteEntry _ => Option.none
  | SyncAction.skip => view
  | SyncAction.setEntry _ entry => some entry

/-- `onResourceUpdate` (functions/src/index.ts).  Mirrors the control flow:
no action when the `isDown` flag did not change; on a report it queries the
queued work orders of the resource and logs the count; on a clear it logs.
No branch performs any store write (the source comments that for the MVP the
rescheduling is left to the PM), so the result is the empty write list in
every branch. -/
def onResourceUpdateWrites (before after : ResourceDoc)
    (queuedForResource : List WorkOrderDoc) : List SyncAction :=
  let wasDown := (before.currentDowntime.map (fun d => d.isDown)).getD false
  let isDown := (after.currentDowntime.map (fun d => d.isDown)).getD false
  if wasDown = isDown then
    []
  else if isDown then
    let _foundCount := queuedForResource.length
    []
  else
    []

/-- Client-side gantt entry fields used for rendering
(src/lib/types/index.ts `GanttEntry`, read-only for the app). -/
structure ClientGanttEntry where
  scheduledStart : Int
  scheduledEnd : Int
  deriving DecidableEq, Repr

/-- The schedule values `getEntryStyle` (gantt/+page.svelte) renders from:
the stored `scheduledStart`/`scheduledEnd` of the entry. -/
def getEntryTimes (entry : ClientGanttEntry) : Int × Int :=
  (entry.scheduledStart, entry.scheduledEnd)

/-- `getEntryStyle` (gantt/+page.svelte): pixel offset and width computed
from the stored entry times (seconds here, milliseconds in the source) and
the timeline parameters.  No downtime term enters the computation. -/
def getEntryStyle (entry : ClientGanttEntry) (timelineStart : ℚ) (pixelsPerDay : ℚ) :
    ℚ × ℚ :=
  let entryStart : ℚ := (entry.scheduledStart : ℚ)
  let entryEnd : ℚ := (entry.scheduledEnd : ℚ)
  let daysFromStart := (entryStart - timelineStart) / 86400
  let duration := (entryEnd - entryStart) / 86400
  (daysFromStart * pixelsPerDay, max (duration * pixelsPerDay) 2)

/-- One read of the effective schedule of a work order, taken at wall-clock
time `now` while the resource is in the given downtime state.  In the source
the rendering pipeline (`getEntryStyle` over the stored gantt entry) uses
only the stored schedule; neither the downtime state nor the read time
enters, which is what the unused binders record. -/
def readEffectiveSchedule (entry : ClientGanttEntry) (_resource : ResourceDoc)
    (_now : Int) : Int × Int :=
  getEntryTimes entry

end LineStart.CloudFn

namespace LineStart.Sys

/-- Job document (src/lib/types/index.ts `Job`), restricted to the fields
the lifecycle logic touches. -/
structure Job where
  id : Nat
  projectId : String
  quantity : Int
  status : JobStatus
  deriving DecidableEq, Repr

/-- System state: the job and work-order documents (keyed by id, as in the
Firestore collections) plus fresh-id counters standing for the ids
`addDoc` generates. -/
structure SysState where
  jobs : Nat → Option Job
  workOrders : Nat → Option WorkOrder
  nextJobId : Nat
  nextWoId : Nat

/-- The empty deployment. -/
def init : SysState :=
  { jobs := fun _ => Option.none,
    workOrders := fun _ => Option.none,
    nextJobId := 0,
    nextWoId := 0 }

/-- `handleCreateJob` (production-queue/+page.svelte) together with
`createJob` (src/lib/utils/firestore.ts): a new job document with status
`unassigned`. -/
def createJobOp (s : SysState) (projectId : String) (quantity : Int) : SysState :=
  let job : Job :=
    { id := s.nextJobId, projectId := projectId, quantity := quantity,
      status := JobStatus.unassigned }
  { s with
    jobs := Function.update s.jobs s.nextJobId (some job),
    nextJobId := s.nextJobId + 1 }

/-- One iteration of `handlePushAssignments` (production-queue/+page.svelte):
creates a queued work order on the job for the selected resource with the
calculated duration, then updates the job status to `assigned`. -/
def assignOp (s : SysState) (jobId : Nat) (job : Job) (resourceId : String)
    (duration : Int) (uid : String) : SysState :=
  let workOrder : WorkOrder :=
    { id := s.nextWoId,
      jobId := jobId,
      resourceId := resourceId,
      woType := WorkOrderType.production,
      priority := Priority.normal,
      estimatedDuration := duration,
      scheduledStart := Option.none,
      status := WorkOrderStatus.queued,
      quantityTarget := job.quantity,
      quantityCompleted := 0,
      assignedBy := uid }
  { s with
    workOrders := Function.update s.workOrders s.nextWoId (some workOrder),
    nextWoId := s.nextWoId + 1,
    jobs := Function.update s.jobs jobId (some { job with status := JobStatus.assigned }) }

/-- Overwrite the work-order document with id `i` (the effect of
`updateWorkOrder` in src/lib/utils/firestore.ts). -/
def setWO (s : SysState) (i : Nat) (updated : WorkOrder) : SysState :=
  { s with workOrders := Function.update s.workOrders i (some updated) }

/-- The state change of one successful `handleComplete` run
(CompleteWorkModal.svelte): apply the update to the original work order
and, in the partial branch, create the remainder under a fresh id. -/
def completeOp (s : SysState) (i : Nat) (workOrder : WorkOrder) (delivered : Int)
    (uid : String) (activeEntry : Option Nat) (now : Int) : SysState :=
  let outcome := handleComplete workOrder delivered uid activeEntry now
  match outcome.updatedOrder with
  | Option.none => s
  | some updated =>
    let s1 := setWO s i updated
    match outcome.createdRemainders with
    | [] => s1
    | input :: _ =>
      let remainder := instantiateWorkOrder input s.nextWoId uid
      { s1 with
        workOrders := Function.update s1.workOrders s.nextWoId (some remainder),
        nextWoId := s.nextWoId + 1 }

/-- One operation of the lifecycle, with the preconditions under which the
UI reaches the handler: job creation validates a nonempty project id and a
positive quantity; assignment requires the job and a selected resource and a
successfully calculated duration; the start button is rendered for queued
orders only, pause for active, resume for paused, and the complete modal for
active or paused orders. -/
inductive Step : SysState → SysState → Prop where
  | createJob (s : SysState) (projectId : String) (quantity : Int)
      (hp : projectId ≠ "") (hq : 0 < quantity) :
      Step s (createJobOp s projectId quantity)
  | assign (s : SysState) (jobId : Nat) (job : Job) (resourceId : String)
      (setupTime productionRate : ℚ) (duration : Int) (uid : String)
      (hj : s.jobs jobId = some job) (hr : resourceId ≠ "")
      (hd : calculateDuration setupTime (job.quantity : ℚ) productionRate =
        Except.ok duration) :
      Step s (assignOp s jobId job resourceId duration uid)
  | start (s : SysState) (i : Nat) (workOrder : WorkOrder) (uid : String) (now : Int)
      (hw : s.workOrders i = some workOrder)
      (hst : workOrder.status = WorkOrderStatus.queued) :
      Step s (setWO s i (handleStartWrites workOrder uid now).workOrderUpdate)
  | pause (s : SysState) (i : Nat) (workOrder : WorkOrder)
      (hw : s.workOrders i = some workOrder)
      (hst : workOrder.status = WorkOrderStatus.active) :
      Step s (setWO s i (pauseWrite workOrder))
  | resume (s : SysState) (i : Nat) (workOrder : WorkOrder)
      (hw : s.workOrders i = some workOrder)
      (hst : workOrder.status = WorkOrderStatus.paused) :
      Step s (setWO s i (resumeWrite workOrder))
  | complete (s : SysState) (i : Nat) (workOrder : WorkOrder) (delivered : Int)
      (uid : String) (activeEntry : Option Nat) (now : Int)
      (hw : s.workOrders i = some workOrder)
      (hst : workOrder.status = WorkOrderStatus.active ∨
        workOrder.status = WorkOrderStatus.paused) :
      Step s (completeOp s i workOrder delivered uid activeEntry now)

/-- States reachable from the empty deployment by lifecycle operations. -/
def Reachable (s : SysState) : Prop :=
  Relation.ReflTransGen Step init s

/-- A remainder work order for `w` stored under some other id: same job,
and target equal to what `w` left undelivered. -/
def RemainderWitness (workOrders : Nat → Option WorkOrder) (i : Nat) (w : WorkOrder) :
    Prop :=
  ∃ j r, workOrders j = some r ∧ j ≠ i ∧ r.jobId = w.jobId ∧
    r.quantityTarget = w.quantityTarget - w.quantityCompleted

/-- Status-indexed shape of a stored work order: positive target; zero
delivered while queued, active or paused; delivered equals target once
completed; strictly between zero and target once partial. -/
def WOShape (w : WorkOrder) : Prop :=
  0 < w.quantityTarget ∧
  ((w.status = WorkOrderStatus.queued ∨ w.status = WorkOrderStatus.active ∨
      w.status = WorkOrderStatus.paused) → w.quantityCompleted = 0) ∧
  (w.status = WorkOrderStatus.completed → w.quantityCompleted = w.quantityTarget) ∧
  (w.status = WorkOrderStatus.partialStatus →
    0 < w.quantityCompleted ∧ w.quantityCompleted < w.quantityTarget)

/-- Inductive invariant of the lifecycle state machine. -/
structure SysInv (s : SysState) : Prop where
  fresh : ∀ i, s.nextWoId ≤ i → s.workOrders i = Option.none
  keys : ∀ i w, s.workOrders i = some w → w.id = i
  jobPos : ∀ i j, s.jobs i = some j → 0 < j.quantity
  shape : ∀ i w, s.workOrders i = some w → WOShape w
  partialWit : ∀ i w, s.workOrders i = some w →
    w.status = WorkOrderStatus.partialStatus → RemainderWitness s.workOrders i w

end LineStart.Sys

namespace LineStart.Scenario

open LineStart.Sys

/-- The job created in the example run: `handleCreateJob` with project `P1`
and quantity 10. -/
def job0 : Job :=
  { id := 0, projectId := "P1", quantity := 10, status := JobStatus.unassigned }

/-- State after creating the job. -/
def s1 : SysState := createJobOp init "P1" 10

/-- State after the PM pushes the assignment of job 0 to resource `r1`
(setup 15 min, 30 units per hour, so duration 35 for quantity 10). -/
def s2 : SysState := assignOp s1 0 job0 "r1" 35 "pm1"

/-- The queued work order that assignment stores under id 0. -/
def wo0 : WorkOrder :=
  { id := 0, jobId := 0, resourceId := "r1", woType := WorkOrderType.production,
    priority := Priority.normal, estimatedDuration := 35,
    scheduledStart := Option.none, status := WorkOrderStatus.queued,
    quantityTarget := 10, quantityCompleted := 0, assignedBy := "pm1" }

/-- The active work order written by the start handler. -/
def woActive : WorkOrder := (handleStartWrites wo0 "op1" 1000).workOrderUpdate

/-- State after the operator starts work order 0. -/
def s3 : SysState := setWO s2 0 woActive

/-- State after the operator completes 4 of 10 units: the partial split. -/
def s4 : SysState := completeOp s3 0 woActive 4 "op1" (some 7) 2000

/-- State after the operator instead completes all 10 units. -/
def s4full : SysState := completeOp s3 0 woActive 10 "op1" (some 7) 2000

/-- The partial work order stored under id 0 in `s4`. -/
def woPartialDoc : WorkOrder :=
  { woActive with
    status := WorkOrderStatus.partialStatus,
    quantityCompleted := 4,
    completedBy := some "op1",
    completedAt := some 2000 }

/-- A store for the split-failure run: the active work order under id 0,
empty audit ledger. -/
def store0 : Store :=
  { workOrders := Function.update (fun _ => Option.none) 0 (some woActive),
    auditLogs := [] }

/-- The store after a partial completion of 4 units in which the second
write (the remainder creation) fails. -/
def failedSplitStore : Store :=
  persistCompleteOutcome store0 0 1 "op1"
    (handleComplete woActive 4 "op1" (some 7) 2000) false

open LineStart.CloudFn

/-- A resource that is operational. -/
def resourceUp : ResourceDoc :=
  { name := "M1", uid := "m1",
    currentDowntime := some { isDown := false, startTime := Option.none, reason := Option.none } }

/-- The same resource after downtime is reported at time 500. -/
def resourceDown : ResourceDoc :=
  { name := "M1", uid := "m1",
    currentDowntime := some { isDown := true, startTime := some 500, reason := some "jam" } }

/-- A queued work-order document of that resource as the trigger reads it. -/
def woDocQueued : WorkOrderDoc :=
  { jobId := 0, resourceId := "m1", woType := WorkOrderType.production,
    status := WorkOrderStatus.queued, quantityTarget := 10, quantityCompleted := 0,
    estimatedDuration := 35, scheduledStart := some 1000, createdAt := 50,
    modifiedAt := 50 }

/-- A stored schedule-view entry scheduled from 1000 to 2000. -/
def entryE : ClientGanttEntry := { scheduledStart := 1000, scheduledEnd := 2000 }

/-- The newer version of a work order document (modified at 200, active). -/
def woNewer : WorkOrderDoc :=
  { jobId := 0, resourceId := "m1", woType := WorkOrderType.production,
    status := WorkOrderStatus.active, quantityTarget := 10, quantityCompleted := 0,
    estimatedDuration := 35, scheduledStart := some 1000, createdAt := 50,
    modifiedAt := 200 }

/-- The older version of the same document (modified at 100, still queued). -/
def woOlder : WorkOrderDoc :=
  { jobId := 0, resourceId := "m1", woType := WorkOrderType.production,
    status := WorkOrderStatus.queued, quantityTarget := 10, quantityCompleted := 0,
    estimatedDuration := 35, scheduledStart := some 1000, createdAt := 50,
    modifiedAt := 100 }

/-- View entry after the synchronizer processes the newer change event. -/
def viewAfterNewer : Option GanttEntryDoc :=
  applySyncAction Option.none (onWorkOrderWrite 0 0 (some woNewer) (some resourceUp) 201)

/-- View entry after the older change event is then replayed. -/
def viewAfterReplay : Option GanttEntryDoc :=
  applySyncAction viewAfterNewer (onWorkOrderWrite 0 0 (some woOlder) (some resourceUp) 202)

end LineStart.Scenario

namespace LineStart

lemma handleComplete_rejected (w : WorkOrder) (delivered : Int) (uid : String)
    (ae : Option Nat) (now : Int)
    (h : delivered ≤ 0 ∨ w.quantityTarget - w.quantityCompleted < delivered) :
    ((handleComplete w delivered uid ae now).error).isSome = true ∧
    (handleComplete w delivered uid ae now).closedEntry = Option.none ∧
    (handleComplete w delivered uid ae now).updatedOrder = Option.none ∧
    (handleComplete w delivered uid ae now).createdRemainders = [] := by
  by_cases h1 : delivered ≤ 0
  · simp [handleComplete, h1]
  · have h2 : w.quantityTarget - w.quantityCompleted < delivered := by omega
    simp [handleComplete, h1, h2]

lemma handleComplete_full (w : WorkOrder) (delivered : Int) (uid : String)
    (ae : Option Nat) (now : Int)
    (h0 : 0 < delivered) (hd : delivered ≤ w.quantityTarget - w.quantityCompleted)
    (hge : w.quantityTarget ≤ w.quantityCompleted + delivered) :
    handleComplete w delivered uid ae now =
      { error := Option.none,
        closedEntry := ae.map fun entryId =>
          { entryId := entryId, quantityCompleted := delivered, endTime := now },
        updatedOrder := some { w with
          status := WorkOrderStatus.completed,
          quantityCompleted := w.quantityTarget,
          completedBy := some uid,
          completedAt := some now },
        createdRemainders := [] } := by
  have h1 : ¬ delivered ≤ 0 := by omega
  have h2 : ¬ w.quantityTarget - w.quantityCompleted < delivered := by omega
  have h3 : w.quantityCompleted + delivered ≥ w.quantityTarget := by omega
  simp [handleComplete, h1, h2, h3]

lemma handleComplete_partialCase (w : WorkOrder) (delivered : Int) (uid : String)
    (ae : Option Nat) (now : Int)
    (h0 : 0 < delivered) (hlt : w.quantityCompleted + delivered < w.quantityTarget) :
    handleComplete w delivered uid ae now =
      { error := Option.none,
        closedEntry := ae.map fun entryId =>
          { entryId := entryId, quantityCompleted := delivered, endTime := now },
        updatedOrder := some { w with
          status := WorkOrderStatus.partialStatus,
          quantityCompleted := w.quantityCompleted + delivered,
          completedBy := some uid,
          completedAt := some now },
        createdRemainders := [
          { jobId := w.jobId,
            resourceId := "",
            woType := WorkOrderType.production,
            priority := w.priority,
            estimatedDuration := 0,
            scheduledStart := Option.none,
            status := WorkOrderStatus.queued,
            quantityTarget := w.quantityTarget - (w.quantityCompleted + delivered),
            quantityCompleted := 0 }] } := by
  have h1 : ¬ delivered ≤ 0 := by omega
  have h2 : ¬ w.quantityTarget - w.quantityCompleted < delivered := by omega
  have h3 : ¬ w.quantityCompleted + delivered ≥ w.quantityTarget := by omega
  simp [handleComplete, h1, h2, h3]

/-- Claim C1: for a work order in state active or paused completed with
`0 < delivered < target − completed`, the complete handler sets the
original order to status partial with completed frozen at
`completed + delivered`, and creates exactly one remainder work order on
the same job with target `original_target − new_completed`, completed 0,
status queued, and no resource assigned. -/
theorem complete_short_delivery_splits (w : WorkOrder) (delivered : Int) (uid : String)
    (ae : Option Nat) (now : Int)
    (hst : w.status = WorkOrderStatus.active ∨ w.status = WorkOrderStatus.paused)
    (h0 : 0 < delivered) (hlt : delivered < w.quantityTarget - w.quantityCompleted) :
    (handleComplete w delivered uid ae now).error = Option.none ∧
    (handleComplete w delivered uid ae now).updatedOrder = some { w with
      status := WorkOrderStatus.partialStatus,
      quantityCompleted := w.quantityCompleted + delivered,
      completedBy := some uid,
      completedAt := some now } ∧
    (handleComplete w delivered uid ae now).createdRemainders = [
      { jobId := w.jobId,
        resourceId := "",
        woType := WorkOrderType.production,
        priority := w.priority,
        estimatedDuration := 0,
        scheduledStart := Option.none,
        status := WorkOrderStatus.queued,
        quantityTarget := w.quantityTarget - (w.quantityCompleted + delivered),
        quantityCompleted := 0 }] := by
  have h := handleComplete_partialCase w delivered uid ae now h0 (by omega)
  rw [h]
  exact ⟨rfl, rfl, rfl⟩

/-- Witness for C1 at a concrete active order (target 10, completed 0,
delivered 4). -/
theorem complete_short_delivery_splits_witness :
    (Scenario.woActive.status = WorkOrderStatus.active ∨
      Scenario.woActive.status = WorkOrderStatus.paused) ∧
    (0 : Int) < 4 ∧
    (4 : Int) < Scenario.woActive.quantityTarget - Scenario.woActive.quantityCompleted ∧
    (handleComplete Scenario.woActive 4 "op1" (some 7) 2000).updatedOrder = some
      { Scenario.woActive with
        status := WorkOrderStatus.partialStatus,
        quantityCompleted := Scenario.woActive.quantityCompleted + 4,
        completedBy := some "op1",
        completedAt := some 2000 } :=
  ⟨Or.inl (by decide), by decide, by decide,
    (complete_short_delivery_splits Scenario.woActive 4 "op1" (some 7) 2000
      (Or.inl (by decide)) (by decide) (by decide)).2.1⟩

/-- Claim C7: a complete call with `delivered ≤ 0` or
`completed + delivered > target` is rejected, and on rejection nothing is
written: no time-entry close, no order update, no remainder creation, and
persisting the outcome leaves any store unchanged. -/
theorem complete_invalid_rejected (w : WorkOrder) (delivered : Int) (uid : String)
    (ae : Option Nat) (now : Int)
    (h : delivered ≤ 0 ∨ w.quantityTarget < w.quantityCompleted + delivered) :
    ((handleComplete w delivered uid ae now).error).isSome = true ∧
    (handleComplete w delivered uid ae now).closedEntry = Option.none ∧
    (handleComplete w delivered uid ae now).updatedOrder = Option.none ∧
    (handleComplete w delivered uid ae now).createdRemainders = [] ∧
    ∀ (store : Store) (freshId : Nat) (createSucceeds : Bool),
      persistCompleteOutcome store w.id freshId uid
        (handleComplete w delivered uid ae now) createSucceeds = store := by
  have hr : delivered ≤ 0 ∨ w.quantityTarget - w.quantityCompleted < delivered := by omega
  obtain ⟨he, hc, hu, hl⟩ := handleComplete_rejected w delivered uid ae now hr
  refine ⟨he, hc, hu, hl, ?_⟩
  intro store freshId createSucceeds
  unfold persistCompleteOutcome
  rw [hu]

/-- Witness for C7 at a concrete order with an over-delivery of 11 against
a remaining target of 10. -/
theorem complete_invalid_rejected_witness :
    ((11 : Int) ≤ 0 ∨ Scenario.woActive.quantityTarget <
      Scenario.woActive.quantityCompleted + 11) ∧
    (handleComplete Scenario.woActive 11 "op1" Option.none 2000).updatedOrder =
      Option.none :=
  ⟨Or.inr (by decide),
    (complete_invalid_rejected Scenario.woActive 11 "op1" Option.none 2000
      (Or.inr (by decide))).2.2.1⟩

/-- Claim C8: for a work order in state active or paused, completing with
`delivered = target − completed` sets status completed with the quantity
frozen at the target, records the completer and timestamp, and creates no
remainder. -/
theorem complete_exact_delivery_completes (w : WorkOrder) (delivered : Int) (uid : String)
    (ae : Option Nat) (now : Int)
    (hst : w.status = WorkOrderStatus.active ∨ w.status = WorkOrderStatus.paused)
    (hlt : w.quantityCompleted < w.quantityTarget)
    (hd : delivered = w.quantityTarget - w.quantityCompleted) :
    (handleComplete w delivered uid ae now).error = Option.none ∧
    (handleComplete w delivered uid ae now).updatedOrder = some { w with
      status := WorkOrderStatus.completed,
      quantityCompleted := w.quantityTarget,
      completedBy := some uid,
      completedAt := some now } ∧
    (handleComplete w delivered uid ae now).createdRemainders = [] := by
  have h := handleComplete_full w delivered uid ae now (by omega) (by omega) (by omega)
  rw [h]
  exact ⟨rfl, rfl, rfl⟩

/-- Witness for C8 at a concrete active order (target 10, completed 0,
delivered 10). -/
theorem complete_exact_delivery_completes_witness :
    (Scenario.woActive.status = WorkOrderStatus.active ∨
      Scenario.woActive.status = WorkOrderStatus.paused) ∧
    Scenario.woActive.quantityCompleted < Scenario.woActive.quantityTarget ∧
    (10 : Int) = Scenario.woActive.quantityTarget - Scenario.woActive.quantityCompleted ∧
    (handleComplete Scenario.woActive 10 "op1" (some 7) 2000).createdRemainders = [] :=
  ⟨Or.inl (by decide), by decide, by decide,
    (complete_exact_delivery_completes Scenario.woActive 10 "op1" (some 7) 2000
      (Or.inl (by decide)) (by decide) (by decide)).2.2⟩

/-- Claim C9: the duration calculator returns
`round(setupMinutes + quantity * 60 / unitsPerHour)` for every positive
rate, in particular 215 for (15, 100, 30), and rejects every rate `≤ 0`
with the invalid-rate error instead of returning a value. -/
theorem calculateDuration_spec :
    (∀ setupTime quantity productionRate : ℚ, 0 < productionRate →
      calculateDuration setupTime quantity productionRate =
        Except.ok (round (setupTime + quantity * 60 / productionRate))) ∧
    calculateDuration 15 100 30 = Except.ok 215 ∧
    (∀ setupTime quantity productionRate : ℚ, productionRate ≤ 0 →
      calculateDuration setupTime quantity productionRate =
        Except.error "Production rate must be greater than 0") := by
  refine ⟨?_, ?_, ?_⟩
  · intro s q r hr
    unfold calculateDuration
    rw [if_neg (not_le.mpr hr)]
    rw [mul_div_assoc]
  · norm_num [calculateDuration]
  · intro s q r hr
    unfold calculateDuration
    rw [if_pos hr]

/-- Witness for C9 at the concrete spec example (15, 100, 30). -/
theorem calculateDuration_spec_witness :
    (0 : ℚ) < 30 ∧
    calculateDuration 15 100 30 = Except.ok (round ((15 : ℚ) + 100 * 60 / 30)) :=
  ⟨by norm_num, calculateDuration_spec.1 15 100 30 (by norm_num)⟩

/-- Claim C10: the remainder created by a partial completion carries
estimated duration 0 and the empty resource id, and inherits the original
priority; no resource setup time or throughput enters its creation. -/
theorem remainder_zero_duration_unassigned (w : WorkOrder) (delivered : Int) (uid : String)
    (ae : Option Nat) (now : Int)
    (h0 : 0 < delivered) (hlt : delivered < w.quantityTarget - w.quantityCompleted) :
    ∃ r, (handleComplete w delivered uid ae now).createdRemainders = [r] ∧
      r.estimatedDuration = 0 ∧ r.resourceId = "" ∧ r.priority = w.priority := by
  rw [handleComplete_partialCase w delivered uid ae now h0 (by omega)]
  exact ⟨_, rfl, rfl, rfl, rfl⟩

/-- Claim C2 (failing run): completing 4 of 10 units while the remainder
creation write fails leaves the original order visible with status partial,
no remainder in the store, and an empty audit ledger — the two effects are
neither atomic nor recorded as an audit pair; with the second write
succeeding the remainder appears, showing exactly what the isolated failure
loses. -/
theorem partial_split_not_atomic_failing_run :
    (Scenario.failedSplitStore.workOrders 0).map WorkOrder.status =
      some WorkOrderStatus.partialStatus ∧
    Scenario.failedSplitStore.workOrders 1 = Option.none ∧
    Scenario.failedSplitStore.auditLogs = [] ∧
    ((persistCompleteOutcome Scenario.store0 0 1 "op1"
        (handleComplete Scenario.woActive 4 "op1" (some 7) 2000) true).workOrders 1).map
      WorkOrder.status = some WorkOrderStatus.queued ∧
    (persistCompleteOutcome Scenario.store0 0 1 "op1"
        (handleComplete Scenario.woActive 4 "op1" (some 7) 2000) true).auditLogs = [] := by
  decide

/-- Claim C3 (counterexample): with resource M1 down since time 500, the
downtime trigger issues no writes, and two reads of the effective schedule
600 seconds (10 minutes) apart return the same stored end time — not an end
time 600 seconds later as the claim requires. -/
theorem downtime_shift_counterexample :
    CloudFn.onResourceUpdateWrites Scenario.resourceUp Scenario.resourceDown
      [Scenario.woDocQueued] = [] ∧
    CloudFn.readEffectiveSchedule Scenario.entryE Scenario.resourceDown 1200 =
      CloudFn.readEffectiveSchedule Scenario.entryE Scenario.resourceDown 600 ∧
    ¬ ((CloudFn.readEffectiveSchedule Scenario.entryE Scenario.resourceDown 1200).2 =
        (CloudFn.readEffectiveSchedule Scenario.entryE Scenario.resourceDown 600).2 + 600) := by
  decide

/-- Claim C3 (amended): downtime state never shifts any schedule — the
effective schedule read is a function of the stored entry alone, identical
across read times and downtime states, and a resource downtime change
triggers no schedule write at all. -/
theorem downtime_never_shifts_schedule :
    (∀ (entry : CloudFn.ClientGanttEntry) (r1 r2 : CloudFn.ResourceDoc) (n1 n2 : Int),
      CloudFn.readEffectiveSchedule entry r1 n1 =
        CloudFn.readEffectiveSchedule entry r2 n2) ∧
    (∀ (before after : CloudFn.ResourceDoc) (queued : List CloudFn.WorkOrderDoc),
      CloudFn.onResourceUpdateWrites before after queued = []) := by
  constructor
  · intro entry r1 r2 n1 n2
    rfl
  · intro b a q
    simp [CloudFn.onResourceUpdateWrites]

/-- Claim C4 (counterexample): the synchronizer applies the newer change
event (source modified at 200, status active) and then the replayed older
event (source modified at 100, status queued); the older write is not
discarded and the view entry regresses to the older data. -/
theorem sync_replay_regression_counterexample :
    (Scenario.viewAfterNewer.map CloudFn.GanttEntryDoc.status) =
      some WorkOrderStatus.active ∧
    (Scenario.viewAfterReplay.map CloudFn.GanttEntryDoc.status) =
      some WorkOrderStatus.queued ∧
    Scenario.viewAfterReplay ≠ Scenario.viewAfterNewer := by
  decide

/-- Claim C4 (amended): for every change event about a resource-assigned
work order whose resource resolves, the synchronizer unconditionally
overwrites the view entry with data derived from the incoming event — it
never reads the existing entry or compares versions, so arrival order, not
source version, decides the final view entry. -/
theorem sync_overwrites_unconditionally (view : Option CloudFn.GanttEntryDoc)
    (jobId workOrderId : Nat) (wo : CloudFn.WorkOrderDoc) (res : CloudFn.ResourceDoc)
    (now : Int) (hr : wo.resourceId ≠ "") :
    CloudFn.applySyncAction view
      (CloudFn.onWorkOrderWrite jobId workOrderId (some wo) (some res) now) =
      some (CloudFn.ganttEntryFor jobId workOrderId wo res now) := by
  simp [CloudFn.onWorkOrderWrite, CloudFn.applySyncAction, hr]

/-- Witness for the amended C4 at the replayed older event. -/
theorem sync_overwrites_unconditionally_witness :
    Scenario.woOlder.resourceId ≠ "" ∧
    CloudFn.applySyncAction Scenario.viewAfterNewer
      (CloudFn.onWorkOrderWrite 0 0 (some Scenario.woOlder)
        (some Scenario.resourceUp) 202) =
      some (CloudFn.ganttEntryFor 0 0 Scenario.woOlder Scenario.resourceUp 202) :=
  ⟨by decide,
    sync_overwrites_unconditionally Scenario.viewAfterNewer 0 0 Scenario.woOlder
      Scenario.resourceUp 202 (by decide)⟩

/-- Claim C5 (failing run): starting work order 0 makes it active while the
job stays `assigned` (the start handler issues no job update), and
completing the full quantity leaves the job at `assigned` as well — the
statuses `in_progress` and `finished` are never written. -/
theorem job_status_not_updated_on_start :
    (Scenario.s3.workOrders 0).map WorkOrder.status = some WorkOrderStatus.active ∧
    (Scenario.s3.jobs 0).map Sys.Job.status = some JobStatus.assigned ∧
    (handleStartWrites Scenario.wo0 "op1" 1000).jobUpdate = Option.none ∧
    (Scenario.s4full.workOrders 0).map WorkOrder.status =
      some WorkOrderStatus.completed ∧
    (Scenario.s4full.jobs 0).map Sys.Job.status = some JobStatus.assigned := by
  decide

/-- Witness for C10 at a concrete partial completion (4 of 10). -/
theorem remainder_zero_duration_unassigned_witness :
    (0 : Int) < 4 ∧
    (4 : Int) < Scenario.woActive.quantityTarget - Scenario.woActive.quantityCompleted ∧
    ∃ r, (handleComplete Scenario.woActive 4 "op1" (some 7) 2000).createdRemainders = [r] ∧
      r.estimatedDuration = 0 ∧ r.resourceId = "" ∧ r.priority = Scenario.woActive.priority :=
  ⟨by decide, by decide,
    remainder_zero_duration_unassigned Scenario.woActive 4 "op1" (some 7) 2000
      (by decide) (by decide)⟩

end LineStart

namespace LineStart.Sys

lemma setWO_lookup (s : SysState) (i : Nat) (w' : WorkOrder) (k : Nat) :
    (setWO s i w').workOrders k = if k = i then some w' else s.workOrders k := by
  simp [setWO, Function.update_apply]

lemma lookup_lt_next {s : SysState} {i : Nat} {w : WorkOrder}
    (hinv : SysInv s) (hw : s.workOrders i = some w) : i < s.nextWoId := by
  by_contra h
  rw [hinv.fresh i (by omega)] at hw
  exact Option.noConfusion hw

lemma sysInv_init : SysInv init := by
  refine ⟨?_, ?_, ?_, ?_, ?_⟩ <;> intros <;> simp_all [init]

lemma sysInv_setWO (s : SysState) (hinv : SysInv s) (i : Nat) (w w' : WorkOrder)
    (hw : s.workOrders i = some w)
    (hid : w'.id = w.id) (hjob : w'.jobId = w.jobId)
    (htar : w'.quantityTarget = w.quantityTarget)
    (hshape : WOShape w') (hnp : w'.status ≠ WorkOrderStatus.partialStatus) :
    SysInv (setWO s i w') := by
  have hi : i < s.nextWoId := lookup_lt_next hinv hw
  constructor
  · intro k hk
    have hk2 : s.nextWoId ≤ k := hk
    rw [setWO_lookup, if_neg (by omega : ¬ k = i)]
    exact hinv.fresh k hk2
  · intro k x hx
    rw [setWO_lookup] at hx
    by_cases hk : k = i
    · rw [if_pos hk] at hx
      have hxw : x = w' := (Option.some.inj hx).symm
      rw [hxw, hid, hinv.keys i w hw, hk]
    · rw [if_neg hk] at hx
      exact hinv.keys k x hx
  · intro k j hj
    exact hinv.jobPos k j hj
  · intro k x hx
    rw [setWO_lookup] at hx
    by_cases hk : k = i
    · rw [if_pos hk] at hx
      rw [← Option.some.inj hx]
      exact hshape
    · rw [if_neg hk] at hx
      exact hinv.shape k x hx
  · intro k x hx hp
    rw [setWO_lookup] at hx
    by_cases hk : k = i
    · rw [if_pos hk] at hx
      rw [← Option.some.inj hx] at hp
      exact absurd hp hnp
    · rw [if_neg hk] at hx
      obtain ⟨j, r, hjr, hjk, hjobr, htarr⟩ := hinv.partialWit k x hx hp
      by_cases hji : j = i
      · subst hji
        have hrw : r = w := by
          rw [hw] at hjr
          exact (Option.some.inj hjr).symm
        refine ⟨j, w', ?_, hjk, ?_, ?_⟩
        · rw [setWO_lookup, if_pos rfl]
        · rw [hjob, ← hrw]
          exact hjobr
        · rw [htar, ← hrw]
          exact htarr
      · refine ⟨j, r, ?_, hjk, hjobr, htarr⟩
        rw [setWO_lookup, if_neg hji]
        exact hjr

lemma sysInv_createJob (s : SysState) (hinv : SysInv s) (projectId : String)
    (quantity : Int) (hq : 0 < quantity) :
    SysInv (createJobOp s projectId quantity) := by
  refine ⟨hinv.fresh, hinv.keys, ?_, hinv.shape, hinv.partialWit⟩
  intro k j hj
  simp only [createJobOp, Function.update_apply] at hj
  by_cases hk : k = s.nextJobId
  · rw [if_pos hk] at hj
    rw [← Option.some.inj hj]
    exact hq
  · rw [if_neg hk] at hj
    exact hinv.jobPos k j hj

lemma sysInv_assign (s : SysState) (hinv : SysInv s) (jobId : Nat) (job : Job)
    (resourceId : String) (duration : Int) (uid : String)
    (hj : s.jobs jobId = some job) :
    SysInv (assignOp s jobId job resourceId duration uid) := by
  have hqpos : 0 < job.quantity := hinv.jobPos jobId job hj
  have hfreshn : s.workOrders s.nextWoId = Option.none := hinv.fresh s.nextWoId (le_refl _)
  constructor
  · intro k hk
    simp only [assignOp, Function.update_apply] at hk ⊢
    rw [if_neg (by omega : ¬ k = s.nextWoId)]
    exact hinv.fresh k (by omega)
  · intro k x hx
    simp only [assignOp, Function.update_apply] at hx
    by_cases hk : k = s.nextWoId
    · rw [if_pos hk] at hx
      rw [← Option.some.inj hx, hk]
    · rw [if_neg hk] at hx
      exact hinv.keys k x hx
  · intro k j hj2
    simp only [assignOp, Function.update_apply] at hj2
    by_cases hk : k = jobId
    · rw [if_pos hk] at hj2
      rw [← Option.some.inj hj2]
      exact hqpos
    · rw [if_neg hk] at hj2
      exact hinv.jobPos k j hj2
  · intro k x hx
    simp only [assignOp, Function.update_apply] at hx
    by_cases hk : k = s.nextWoId
    · rw [if_pos hk] at hx
      rw [← Option.some.inj hx]
      refine ⟨hqpos, fun _ => rfl, fun h => ?_, fun h => ?_⟩ <;> simp at h
    · rw [if_neg hk] at hx
      exact hinv.shape k x hx
  · intro k x hx hp
    simp only [assignOp, Function.update_apply] at hx
    by_cases hk : k = s.nextWoId
    · rw [if_pos hk] at hx
      rw [← Option.some.inj hx] at hp
      simp at hp
    · rw [if_neg hk] at hx
      obtain ⟨j2, r, hjr, hjk, hjobr, htarr⟩ := hinv.partialWit k x hx hp
      have hjn : j2 ≠ s.nextWoId := by
        intro h
        rw [h, hfreshn] at hjr
        exact Option.noConfusion hjr
      refine ⟨j2, r, ?_, hjk, hjobr, htarr⟩
      simp only [assignOp, Function.update_apply]
      rw [if_neg hjn]
      exact hjr

lemma sysInv_complete (s : SysState) (hinv : SysInv s) (i : Nat) (w : WorkOrder)
    (delivered : Int) (uid : String) (ae : Option Nat) (now : Int)
    (hw : s.workOrders i = some w)
    (hst : w.status = WorkOrderStatus.active ∨ w.status = WorkOrderStatus.paused) :
    SysInv (completeOp s i w delivered uid ae now) := by
  have hi : i < s.nextWoId := lookup_lt_next hinv hw
  obtain ⟨hpos, hzero, hcompl, hpartsh⟩ := hinv.shape i w hw
  have hc0 : w.quantityCompleted = 0 := by
    apply hzero
    rcases hst with h | h
    · exact Or.inr (Or.inl h)
    · exact Or.inr (Or.inr h)
  by_cases h1 : delivered ≤ 0
  · obtain ⟨-, -, hu, -⟩ := handleComplete_rejected w delivered uid ae now (Or.inl h1)
    simp only [completeOp, hu]
    exact hinv
  by_cases h2 : w.quantityTarget - w.quantityCompleted < delivered
  · obtain ⟨-, -, hu, -⟩ := handleComplete_rejected w delivered uid ae now (Or.inr h2)
    simp only [completeOp, hu]
    exact hinv
  by_cases h3 : w.quantityTarget ≤ w.quantityCompleted + delivered
  · have hfull := handleComplete_full w delivered uid ae now (by omega) (by omega) h3
    simp only [completeOp, hfull]
    refine sysInv_setWO s hinv i w _ hw rfl rfl rfl ?_ ?_
    · refine ⟨hpos, fun h => ?_, fun _ => rfl, fun h => ?_⟩
      · rcases h with h | h | h <;> simp at h
      · simp at h
    · intro h
      simp at h
  · have h4 : w.quantityCompleted + delivered < w.quantityTarget := by omega
    have hpc := handleComplete_partialCase w delivered uid ae now (by omega) h4
    simp only [completeOp, hpc, setWO, instantiateWorkOrder]
    constructor
    · intro k hk
      have hk2 : s.nextWoId + 1 ≤ k := hk
      simp only [Function.update_apply]
      rw [if_neg (by omega : ¬ k = s.nextWoId), if_neg (by omega : ¬ k = i)]
      exact hinv.fresh k (by omega)
    · intro k x hx
      simp only [Function.update_apply] at hx
      by_cases hkn : k = s.nextWoId
      · rw [if_pos hkn] at hx
        rw [← Option.some.inj hx, hkn]
      · rw [if_neg hkn] at hx
        by_cases hki : k = i
        · rw [if_pos hki] at hx
          rw [← Option.some.inj hx]
          have : w.id = i := hinv.keys i w hw
          simp [this, hki]
        · rw [if_neg hki] at hx
          exact hinv.keys k x hx
    · intro k j hj
      exact hinv.jobPos k j hj
    · intro k x hx
      simp only [Function.update_apply] at hx
      by_cases hkn : k = s.nextWoId
      · rw [if_pos hkn] at hx
        rw [← Option.some.inj hx]
        refine ⟨?_, fun _ => rfl, fun h => ?_, fun h => ?_⟩
        · show (0 : Int) < w.quantityTarget - (w.quantityCompleted + delivered)
          omega
        · simp at h
        · simp at h
      · rw [if_neg hkn] at hx
        by_cases hki : k = i
        · rw [if_pos hki] at hx
          rw [← Option.some.inj hx]
          refine ⟨hpos, fun h => ?_, fun h => ?_, fun _ => ⟨?_, h4⟩⟩
          · rcases h with h | h | h <;> simp at h
          · simp at h
          · show (0 : Int) < w.quantityCompleted + delivered
            omega
        · rw [if_neg hki] at hx
          exact hinv.shape k x hx
    · intro k x hx hp
      simp only [Function.update_apply] at hx
      by_cases hkn : k = s.nextWoId
      · rw [if_pos hkn] at hx
        rw [← Option.some.inj hx] at hp
        simp at hp
      · rw [if_neg hkn] at hx
        by_cases hki : k = i
        · rw [if_pos hki] at hx
          refine ⟨s.nextWoId,
            { id := s.nextWoId, jobId := w.jobId, resourceId := "",
              woType := WorkOrderType.production, priority := w.priority,
              estimatedDuration := 0, scheduledStart := Option.none,
              status := WorkOrderStatus.queued,
              quantityTarget := w.quantityTarget - (w.quantityCompleted + delivered),
              quantityCompleted := 0, assignedBy := uid }, ?_, ?_, ?_, ?_⟩
          · simp [Function.update_apply]
          · omega
          · rw [← Option.some.inj hx]
          · rw [← Option.some.inj hx]
        · rw [if_neg hki] at hx
          obtain ⟨j, r, hjr, hjk, hjobr, htarr⟩ := hinv.partialWit k x hx hp
          have hjn : j ≠ s.nextWoId := by
            intro h
            rw [h, hinv.fresh s.nextWoId (le_refl _)] at hjr
            exact Option.noConfusion hjr
          by_cases hji : j = i
          · have hrw : r = w := by
              rw [hji, hw] at hjr
              exact (Option.some.inj hjr).symm
            refine ⟨j,
              { w with
                status := WorkOrderStatus.partialStatus,
                quantityCompleted := w.quantityCompleted + delivered,
                completedBy := some uid,
                completedAt := some now }, ?_, hjk, ?_, ?_⟩
            · simp only [Function.update_apply]
              rw [if_neg hjn, if_pos hji]
            · rw [hrw] at hjobr
              exact hjobr
            · rw [hrw] at htarr
              exact htarr
          · refine ⟨j, r, ?_, hjk, hjobr, htarr⟩
            simp only [Function.update_apply]
            rw [if_neg hjn, if_neg hji]
            exact hjr

lemma sysInv_step {s s' : SysState} (hinv : SysInv s) (hstep : Step s s') : SysInv s' := by
  cases hstep with
  | createJob projectId quantity hp hq =>
    exact sysInv_createJob s hinv projectId quantity hq
  | assign jobId job resourceId setupTime productionRate duration uid hj hr hd =>
    exact sysInv_assign s hinv jobId job resourceId duration uid hj
  | start i workOrder uid now hw hst =>
    refine sysInv_setWO s hinv i workOrder _ hw rfl rfl rfl ?_ ?_
    · obtain ⟨hpos, hzero, -, -⟩ := hinv.shape i workOrder hw
      refine ⟨hpos, fun _ => hzero (Or.inl hst), fun h => ?_, fun h => ?_⟩ <;>
        simp [handleStartWrites] at h
    · intro h
      simp [handleStartWrites] at h
  | pause i workOrder hw hst =>
    refine sysInv_setWO s hinv i workOrder _ hw rfl rfl rfl ?_ ?_
    · obtain ⟨hpos, hzero, -, -⟩ := hinv.shape i workOrder hw
      refine ⟨hpos, fun _ => hzero (Or.inr (Or.inl hst)), fun h => ?_, fun h => ?_⟩ <;>
        simp [pauseWrite] at h
    · intro h
      simp [pauseWrite] at h
  | resume i workOrder hw hst =>
    refine sysInv_setWO s hinv i workOrder _ hw rfl rfl rfl ?_ ?_
    · obtain ⟨hpos, hzero, -, -⟩ := hinv.shape i workOrder hw
      refine ⟨hpos, fun _ => hzero (Or.inr (Or.inr hst)), fun h => ?_, fun h => ?_⟩ <;>
        simp [resumeWrite] at h
    · intro h
      simp [resumeWrite] at h
  | complete i workOrder delivered uid activeEntry now hw hst =>
    exact sysInv_complete s hinv i workOrder delivered uid activeEntry now hw hst

lemma sysInv_reachable {s : SysState} (hs : Reachable s) : SysInv s := by
  induction hs with
  | refl => exact sysInv_init
  | tail _ hstep ih => exact sysInv_step ih hstep

/-- Claim C6: for every work order in every state reachable by the
lifecycle operations (creation, assignment, start, pause, resume,
complete), `completed ≤ target` holds, `status = completed` iff
`completed = target`, and `status = partial` iff
`0 < completed < target` and a remainder work order referencing the same
job exists under another id. -/
theorem workOrder_lifecycle_invariants (s : SysState) (hs : Reachable s)
    (i : Nat) (w : WorkOrder) (hw : s.workOrders i = some w) :
    w.quantityCompleted ≤ w.quantityTarget ∧
    (w.status = WorkOrderStatus.completed ↔
      w.quantityCompleted = w.quantityTarget) ∧
    (w.status = WorkOrderStatus.partialStatus ↔
      (0 < w.quantityCompleted ∧ w.quantityCompleted < w.quantityTarget ∧
        ∃ j r, s.workOrders j = some r ∧ j ≠ i ∧ r.jobId = w.jobId)) := by
  have hinv := sysInv_reachable hs
  obtain ⟨hpos, hzero, hcompl, hpartsh⟩ := hinv.shape i w hw
  refine ⟨?_, ?_, ?_⟩
  · rcases hstat : w.status with _ | _ | _ | _ | _
    · have := hzero (Or.inl hstat)
      omega
    · have := hzero (Or.inr (Or.inl hstat))
      omega
    · have := hzero (Or.inr (Or.inr hstat))
      omega
    · have := hcompl hstat
      omega
    · have := hpartsh hstat
      omega
  · constructor
    · exact hcompl
    · intro hceq
      rcases hstat : w.status with _ | _ | _ | _ | _
      · have := hzero (Or.inl hstat)
        omega
      · have := hzero (Or.inr (Or.inl hstat))
        omega
      · have := hzero (Or.inr (Or.inr hstat))
        omega
      · rfl
      · have := hpartsh hstat
        omega
  · constructor
    · intro hp
      obtain ⟨h1, h2⟩ := hpartsh hp
      obtain ⟨j, r, hjr, hjk, hjobr, -⟩ := hinv.partialWit i w hw hp
      exact ⟨h1, h2, j, r, hjr, hjk, hjobr⟩
    · rintro ⟨h1, h2, -⟩
      rcases hstat : w.status with _ | _ | _ | _ | _
      · have := hzero (Or.inl hstat)
        omega
      · have := hzero (Or.inr (Or.inl hstat))
        omega
      · have := hzero (Or.inr (Or.inr hstat))
        omega
      · have := hcompl hstat
        omega
      · rfl

/-- Witness for C6: the invariant instantiated at the partially completed
work order of the concrete four-operation run create, assign, start,
complete(4 of 10). -/
theorem workOrder_lifecycle_invariants_witness :
    Scenario.s4.workOrders 0 = some Scenario.woPartialDoc ∧
    (Scenario.woPartialDoc.quantityCompleted ≤ Scenario.woPartialDoc.quantityTarget ∧
      (Scenario.woPartialDoc.status = WorkOrderStatus.completed ↔
        Scenario.woPartialDoc.quantityCompleted = Scenario.woPartialDoc.quantityTarget) ∧
      (Scenario.woPartialDoc.status = WorkOrderStatus.partialStatus ↔
        (0 < Scenario.woPartialDoc.quantityCompleted ∧
          Scenario.woPartialDoc.quantityCompleted < Scenario.woPartialDoc.quantityTarget ∧
          ∃ j r, Scenario.s4.workOrders j = some r ∧ j ≠ 0 ∧
            r.jobId = Scenario.woPartialDoc.jobId))) := by
  have t1 : Step init Scenario.s1 :=
    Step.createJob init "P1" 10 (by decide) (by decide)
  have t2 : Step Scenario.s1 Scenario.s2 :=
    Step.assign Scenario.s1 0 Scenario.job0 "r1" 15 30 35 "pm1" (by decide) (by decide)
      (by norm_num [calculateDuration, Scenario.job0])
  have t3 : Step Scenario.s2 Scenario.s3 :=
    Step.start Scenario.s2 0 Scenario.wo0 "op1" 1000 (by decide) (by decide)
  have t4 : Step Scenario.s3 Scenario.s4 :=
    Step.complete Scenario.s3 0 Scenario.woActive 4 "op1" (some 7) 2000 (by decide)
      (Or.inl (by decide))
  have htrace : Reachable Scenario.s4 :=
    Relation.ReflTransGen.tail
      (Relation.ReflTransGen.tail
        (Relation.ReflTransGen.tail
          (Relation.ReflTransGen.tail Relation.ReflTransGen.refl t1) t2) t3) t4
  exact ⟨by decide,
    workOrder_lifecycle_invariants Scenario.s4 htrace 0 Scenario.woPartialDoc (by decide)⟩

end LineStart.Sys
